import Mathlib

/-!
Shallow embedding of the layout-animation scheduler of
`src/ReactCommon/react/renderer/animations/LayoutAnimationKeyFrameManager.h`
(React Native's `LayoutAnimationKeyFrameManager`), together with proofs of the
spec's claims about it.

The two mutation-ordering comparators
(`shouldFirstComeBeforeSecondRemovesOnly`, `shouldFirstComeBeforeSecondMutation`)
are implemented in full in the header and are translated from that source.
`calculateAnimationProgress`, `createInterpolatedShadowView` and
`pullTransaction` are only declared in the header (their translation unit is
not part of the sources), so they are modelled from the specification's words;
each such definition says so in its doc comment.
-/

/-- The mutation type tag of `ShadowViewMutation::Type`
(`Create`, `Delete`, `Insert`, `Remove`, `Update`). -/
inductive MutationType where
  | Create
  | Delete
  | Insert
  | Remove
  | Update
deriving DecidableEq, Repr

/-- A node snapshot (`ShadowView`): an identifying `tag` plus visual payload.
The numeric visual attributes (layout frame and opacity) are modelled as
rationals; `componentName` stands for the non-interpolable payload. -/
structure ShadowView where
  tag : Int
  componentName : String
  layoutX : ℚ
  layoutY : ℚ
  layoutWidth : ℚ
  layoutHeight : ℚ
  opacity : ℚ
deriving DecidableEq, Repr

/-- A tree mutation (`ShadowViewMutation`): a type tag, the parent view, the
old/new child snapshots, and a sibling index. -/
structure ShadowViewMutation where
  type : MutationType
  parentShadowView : ShadowView
  oldChildShadowView : ShadowView
  newChildShadowView : ShadowView
  index : Int
deriving DecidableEq, Repr

/-- Translation of `shouldFirstComeBeforeSecondRemovesOnly`
(LayoutAnimationKeyFrameManager.h, lines 168-177): removes on the same level
are sorted so that the highest indices come first. -/
def shouldFirstComeBeforeSecondRemovesOnly
    (lhs rhs : ShadowViewMutation) : Bool :=
  (lhs.type = MutationType.Remove ∧ lhs.type = rhs.type) ∧
    (lhs.parentShadowView.tag = rhs.parentShadowView.tag) ∧
    (lhs.index > rhs.index)

/-- Translation of `shouldFirstComeBeforeSecondMutation`
(LayoutAnimationKeyFrameManager.h, lines 179-224): deletes always come last,
remove comes before insert, create comes before insert, and same-level removes
are ordered by descending index. Each `if` mirrors one `if`/`return` of the
C++ function; the final `false` is the shared fall-through `return false`. -/
def shouldFirstComeBeforeSecondMutation
    (lhs rhs : ShadowViewMutation) : Bool :=
  if lhs.type ≠ rhs.type then
    if lhs.type = MutationType.Delete then
      false
    else if rhs.type = MutationType.Delete then
      true
    else if lhs.type = MutationType.Remove ∧ rhs.type = MutationType.Insert then
      true
    else if rhs.type = MutationType.Remove ∧ lhs.type = MutationType.Insert then
      false
    else if lhs.type = MutationType.Create ∧ rhs.type = MutationType.Insert then
      true
    else if rhs.type = MutationType.Create ∧ lhs.type = MutationType.Insert then
      false
    else
      false
  else
    if lhs.type = MutationType.Remove ∧
        lhs.parentShadowView.tag = rhs.parentShadowView.tag then
      if lhs.index > rhs.index then true else false
    else
      false

/-- A concrete `ShadowView` with the given tag, used to build test inputs. -/
def sampleView (t : Int) : ShadowView :=
  { tag := t
    componentName := "View"
    layoutX := 0
    layoutY := 0
    layoutWidth := 100
    layoutHeight := 100
    opacity := 1 }

/-- A concrete mutation with the given type, parent tag and sibling index. -/
def sampleMutation (ty : MutationType) (parentTag : Int) (idx : Int) :
    ShadowViewMutation :=
  { type := ty
    parentShadowView := sampleView parentTag
    oldChildShadowView := sampleView 1000
    newChildShadowView := sampleView 1001
    index := idx }

example :
    shouldFirstComeBeforeSecondMutation
      (sampleMutation MutationType.Remove 7 5)
      (sampleMutation MutationType.Remove 7 3) = true := by decide

example :
    shouldFirstComeBeforeSecondMutation
      (sampleMutation MutationType.Delete 7 0)
      (sampleMutation MutationType.Remove 7 0) = false := by decide

example :
    shouldFirstComeBeforeSecondRemovesOnly
      (sampleMutation MutationType.Remove 7 5)
      (sampleMutation MutationType.Remove 7 3) = true := by decide

/-- C1: for every pair of mutations with differing types,
`shouldFirstComeBeforeSecondMutation` follows the priority rules: a Delete
never sorts before any other type and any other type sorts before a Delete;
a Remove sorts before an Insert; a Create sorts before an Insert. -/
theorem ordering_priority_rules_C1 (a b : ShadowViewMutation)
    (hne : a.type ≠ b.type) :
    (a.type = MutationType.Delete →
      shouldFirstComeBeforeSecondMutation a b = false) ∧
    (b.type = MutationType.Delete →
      shouldFirstComeBeforeSecondMutation a b = true) ∧
    (a.type = MutationType.Remove → b.type = MutationType.Insert →
      shouldFirstComeBeforeSecondMutation a b = true) ∧
    (a.type = MutationType.Insert → b.type = MutationType.Remove →
      shouldFirstComeBeforeSecondMutation a b = false) ∧
    (a.type = MutationType.Create → b.type = MutationType.Insert →
      shouldFirstComeBeforeSecondMutation a b = true) ∧
    (a.type = MutationType.Insert → b.type = MutationType.Create →
      shouldFirstComeBeforeSecondMutation a b = false) := by
  cases ha : a.type <;> cases hb : b.type <;>
    simp_all [shouldFirstComeBeforeSecondMutation]

/-- Witness for C1 at a concrete Remove/Insert pair. -/
theorem ordering_priority_rules_C1_witness :
    shouldFirstComeBeforeSecondMutation
      (sampleMutation MutationType.Remove 1 0)
      (sampleMutation MutationType.Insert 1 0) = true :=
  (ordering_priority_rules_C1
      (sampleMutation MutationType.Remove 1 0)
      (sampleMutation MutationType.Insert 1 0)
      (by decide)).2.2.1 rfl rfl

/-- C3 (amended): the comparator is asymmetric: it never asserts both
`a` before `b` and `b` before `a` (hence it is also irreflexive). -/
theorem comparator_asymmetric_C3 (a b : ShadowViewMutation) :
    (shouldFirstComeBeforeSecondMutation a b &&
      shouldFirstComeBeforeSecondMutation b a) = false := by
  cases ha : a.type <;> cases hb : b.type <;>
    simp_all [shouldFirstComeBeforeSecondMutation]
  omega

/-- C3 counterexample: the comparator is not a strict weak ordering. A strict
weak ordering requires incomparability to be an equivalence relation (in
particular transitive); here `Remove(parent 7, index 5)` is incomparable with
`Create`, `Create` is incomparable with `Remove(parent 7, index 3)`, yet
`Remove(parent 7, index 5)` sorts strictly before `Remove(parent 7, index 3)`,
so incomparability is not transitive. -/
theorem not_strict_weak_order_C3_counterexample :
    shouldFirstComeBeforeSecondMutation
      (sampleMutation MutationType.Remove 7 5)
      (sampleMutation MutationType.Create 7 0) = false ∧
    shouldFirstComeBeforeSecondMutation
      (sampleMutation MutationType.Create 7 0)
      (sampleMutation MutationType.Remove 7 5) = false ∧
    shouldFirstComeBeforeSecondMutation
      (sampleMutation MutationType.Create 7 0)
      (sampleMutation MutationType.Remove 7 3) = false ∧
    shouldFirstComeBeforeSecondMutation
      (sampleMutation MutationType.Remove 7 3)
      (sampleMutation MutationType.Create 7 0) = false ∧
    shouldFirstComeBeforeSecondMutation
      (sampleMutation MutationType.Remove 7 5)
      (sampleMutation MutationType.Remove 7 3) = true := by
  decide

/-- Characterization of `shouldFirstComeBeforeSecondMutation`: it holds
exactly when the pair matches one of the four positive rules of the source
(non-Delete before Delete, Remove before Insert, Create before Insert, or
same-parent Removes with descending index). -/
lemma shouldFirstComeBeforeSecondMutation_eq_true_iff
    (a b : ShadowViewMutation) :
    shouldFirstComeBeforeSecondMutation a b = true ↔
      (a.type ≠ MutationType.Delete ∧ b.type = MutationType.Delete) ∨
      (a.type = MutationType.Remove ∧ b.type = MutationType.Insert) ∨
      (a.type = MutationType.Create ∧ b.type = MutationType.Insert) ∨
      (a.type = MutationType.Remove ∧ b.type = MutationType.Remove ∧
        a.parentShadowView.tag = b.parentShadowView.tag ∧
        b.index < a.index) := by
  cases ha : a.type <;> cases hb : b.type <;>
    simp_all [shouldFirstComeBeforeSecondMutation]

/-- C4: the relation computed by `shouldFirstComeBeforeSecondMutation` is
transitive: if `a` sorts before `b` and `b` sorts before `c`, then `a` sorts
before `c`. -/
theorem comparator_transitive_C4 (a b c : ShadowViewMutation)
    (hab : shouldFirstComeBeforeSecondMutation a b = true)
    (hbc : shouldFirstComeBeforeSecondMutation b c = true) :
    shouldFirstComeBeforeSecondMutation a c = true := by
  rw [shouldFirstComeBeforeSecondMutation_eq_true_iff] at hab hbc ⊢
  rcases hab with ⟨h1, h2⟩ | ⟨h1, h2⟩ | ⟨h1, h2⟩ | ⟨h1, h2, h3, h4⟩ <;>
    rcases hbc with ⟨g1, g2⟩ | ⟨g1, g2⟩ | ⟨g1, g2⟩ | ⟨g1, g2, g3, g4⟩ <;>
    simp_all
  omega

/-- Witness for C4: `Remove(7,5)` before `Remove(7,3)` before `Insert`, and
indeed `Remove(7,5)` sorts before the `Insert`. -/
theorem comparator_transitive_C4_witness :
    shouldFirstComeBeforeSecondMutation
      (sampleMutation MutationType.Remove 7 5)
      (sampleMutation MutationType.Insert 7 0) = true :=
  comparator_transitive_C4
    (sampleMutation MutationType.Remove 7 5)
    (sampleMutation MutationType.Remove 7 3)
    (sampleMutation MutationType.Insert 7 0)
    (by decide) (by decide)

/-- C9: `shouldFirstComeBeforeSecondRemovesOnly` coincides with
`shouldFirstComeBeforeSecondMutation` on every pair of Remove mutations and
returns `false` whenever at least one of the two mutations is not a Remove. -/
theorem removesOnly_refines_full_C9 (a b : ShadowViewMutation) :
    shouldFirstComeBeforeSecondRemovesOnly a b =
      if a.type = MutationType.Remove ∧ b.type = MutationType.Remove then
        shouldFirstComeBeforeSecondMutation a b
      else false := by
  cases ha : a.type <;> cases hb : b.type <;>
    simp_all [shouldFirstComeBeforeSecondRemovesOnly,
      shouldFirstComeBeforeSecondMutation]

/-- C10: the comparator's result depends only on the two mutations' types,
parent tags, and sibling indices: mutations that agree on those fields get
the same answer, whatever their snapshots or other payload. -/
theorem comparator_depends_only_on_projections_C10
    (a b a' b' : ShadowViewMutation)
    (ht1 : a.type = a'.type) (ht2 : b.type = b'.type)
    (hp1 : a.parentShadowView.tag = a'.parentShadowView.tag)
    (hp2 : b.parentShadowView.tag = b'.parentShadowView.tag)
    (hi1 : a.index = a'.index) (hi2 : b.index = b'.index) :
    shouldFirstComeBeforeSecondMutation a b =
      shouldFirstComeBeforeSecondMutation a' b' := by
  simp only [shouldFirstComeBeforeSecondMutation, ht1, ht2, hp1, hp2, hi1, hi2]

/-- Witness for C10: two pairs agreeing on types, parent tags and indices but
with different child snapshots and parent payload compare identically. -/
theorem comparator_depends_only_on_projections_C10_witness :
    shouldFirstComeBeforeSecondMutation
      (sampleMutation MutationType.Remove 7 5)
      (sampleMutation MutationType.Insert 7 2) =
    shouldFirstComeBeforeSecondMutation
      { sampleMutation MutationType.Remove 7 5 with
          oldChildShadowView := sampleView 42
          newChildShadowView := sampleView 43 }
      { sampleMutation MutationType.Insert 7 2 with
          parentShadowView := { sampleView 7 with opacity := 1/2 } } :=
  comparator_depends_only_on_projections_C10 _ _ _ _
    rfl rfl rfl rfl rfl rfl

/-- On two Remove mutations with equal parent tags, both comparators decide
exactly "higher sibling index first". -/
lemma remove_pair_compare (a b : ShadowViewMutation)
    (ha : a.type = MutationType.Remove) (hb : b.type = MutationType.Remove)
    (hp : a.parentShadowView.tag = b.parentShadowView.tag) :
    shouldFirstComeBeforeSecondMutation a b = decide (b.index < a.index) ∧
    shouldFirstComeBeforeSecondRemovesOnly a b = decide (b.index < a.index) := by
  constructor
  · simp [shouldFirstComeBeforeSecondMutation, ha, hb, hp]
  · simp [shouldFirstComeBeforeSecondRemovesOnly, ha, hb, hp]

/-- C2: for Remove mutations sharing a parent tag, both comparators put the
higher sibling index first; consequently any list of same-parent Removes that
is sorted by the comparator (the postcondition of a stable sort: no element
sorts before one of its predecessors) has non-increasing sibling indices. -/
theorem removes_same_parent_C2 (t : Int) (l : List ShadowViewMutation)
    (hl : ∀ m ∈ l, m.type = MutationType.Remove ∧ m.parentShadowView.tag = t) :
    (∀ a ∈ l, ∀ b ∈ l,
      shouldFirstComeBeforeSecondMutation a b = decide (b.index < a.index) ∧
      shouldFirstComeBeforeSecondRemovesOnly a b = decide (b.index < a.index)) ∧
    (List.Pairwise
        (fun a b => shouldFirstComeBeforeSecondMutation b a = false) l →
      List.Pairwise (fun a b => b.index ≤ a.index) l) := by
  constructor
  · intro a hma b hmb
    obtain ⟨ha1, ha2⟩ := hl a hma
    obtain ⟨hb1, hb2⟩ := hl b hmb
    exact remove_pair_compare a b ha1 hb1 (ha2.trans hb2.symm)
  · intro hsorted
    refine hsorted.imp_of_mem ?_
    intro a b hma hmb hfalse
    obtain ⟨ha1, ha2⟩ := hl a hma
    obtain ⟨hb1, hb2⟩ := hl b hmb
    have h := (remove_pair_compare b a hb1 ha1 (hb2.trans ha2.symm)).1
    rw [h] at hfalse
    simpa using hfalse

/-- Witness for C2: the concrete same-parent Remove batch
`[Remove(7,5), Remove(7,3)]` is sorted by the comparator and indeed has
non-increasing sibling indices. -/
theorem removes_same_parent_C2_witness :
    List.Pairwise (fun a b : ShadowViewMutation => b.index ≤ a.index)
      [sampleMutation MutationType.Remove 7 5,
        sampleMutation MutationType.Remove 7 3] :=
  (removes_same_parent_C2 7
      [sampleMutation MutationType.Remove 7 5,
        sampleMutation MutationType.Remove 7 3]
      (by decide)).2 (by decide)

/-- Modelled from the spec: the animation configuration record (options of §6:
duration and delay in milliseconds, as exact rationals; the progress-function
identifier and property lists play no role in the claims below). -/
structure AnimationConfig where
  duration : ℚ
  delay : ℚ
deriving DecidableEq, Repr

/-- Modelled from the spec: one user-requested animation operation (§3),
reduced to the fields the claims read: its surface and its start timestamp. -/
structure LayoutAnimation where
  surfaceId : Int
  startTime : ℚ
deriving DecidableEq, Repr

/-- Modelled from the spec: the body of `calculateAnimationProgress` is not
under `src/` (only its declaration, LayoutAnimationKeyFrameManager.h lines
105-108). §4.4: "returns a pair (rawProgress, clampedProgress) where
rawProgress = (now − startTime − delay) / duration, clamped into [0, 1]".
Times are exact rationals. -/
def calculateAnimationProgress (now : ℚ) (animation : LayoutAnimation)
    (mutationConfig : AnimationConfig) : ℚ × ℚ :=
  let rawProgress :=
    (now - animation.startTime - mutationConfig.delay) / mutationConfig.duration
  (rawProgress, max 0 (min 1 rawProgress))

/-- Linear interpolation of one numeric visual attribute. -/
def interpolateScalar (progress a b : ℚ) : ℚ :=
  a + progress * (b - a)

/-- Modelled from the spec: the body of `createInterpolatedShadowView` is not
under `src/` (only its declaration, LayoutAnimationKeyFrameManager.h lines
119-122). §4.4: "linearly interpolates every numeric visual attribute
(position, size, opacity, and similarly typed properties) between the start
and final snapshots using the progress function selected by the animation
configuration (identity/linear by default; pluggable easing), and copies all
non-interpolable attributes from the final snapshot". The default
identity/linear progress function is used; `tag` and `componentName` are the
non-interpolable attributes. -/
def createInterpolatedShadowView (progress : ℚ)
    (startingView finalView : ShadowView) : ShadowView :=
  { tag := finalView.tag
    componentName := finalView.componentName
    layoutX :=
      interpolateScalar progress startingView.layoutX finalView.layoutX
    layoutY :=
      interpolateScalar progress startingView.layoutY finalView.layoutY
    layoutWidth :=
      interpolateScalar progress startingView.layoutWidth finalView.layoutWidth
    layoutHeight :=
      interpolateScalar progress startingView.layoutHeight
        finalView.layoutHeight
    opacity :=
      interpolateScalar progress startingView.opacity finalView.opacity }

/-- The scheduler state read by the transaction interceptor: the pending
animation configuration (`currentAnimation_`) and the in-flight animations
(`inflightAnimations_`), per the header's protected members. -/
structure LayoutAnimationKeyFrameManagerState where
  currentAnimation : Option LayoutAnimation
  inflightAnimations : List LayoutAnimation
deriving DecidableEq, Repr

/-- A mounting transaction: surface, transaction number and mutation list. -/
structure MountingTransaction where
  surfaceId : Int
  number : Nat
  mutations : List ShadowViewMutation
deriving DecidableEq, Repr

/-- Modelled from the spec: the body of `shouldOverridePullTransaction` is not
under `src/` (only its declaration, LayoutAnimationKeyFrameManager.h line 64).
§6: the transaction is overridden unless "no animation is active and no
in-flight keyframes exist on the surface". The header notes the surface
argument is a pending TODO; the spec's surface-scoped wording is followed. -/
def shouldOverridePullTransaction
    (state : LayoutAnimationKeyFrameManagerState) (surfaceId : Int) : Bool :=
  state.currentAnimation.isSome ||
    state.inflightAnimations.any (fun a => a.surfaceId == surfaceId)

/-- Modelled from the spec: the body of `pullTransaction` is not under `src/`
(only its declaration, LayoutAnimationKeyFrameManager.h lines 69-73). §6:
"returns "no override" when no animation is active and no in-flight keyframes
exist on the surface (pass-through)", modelled as `none`. In the override
branch only §4.5 step 5 (the stable sort of the output list by the ordering
comparator) is modelled; steps 2-4 (conflict resolution, deferral,
interpolation) are touched by no claim. -/
def pullTransaction (state : LayoutAnimationKeyFrameManagerState)
    (surfaceId : Int) (number : Nat)
    (mutations : List ShadowViewMutation) : Option MountingTransaction :=
  if shouldOverridePullTransaction state surfaceId then
    some { surfaceId := surfaceId
           number := number
           mutations := mutations.mergeSort
             (fun a b => !shouldFirstComeBeforeSecondMutation b a) }
  else
    none

/-- C5 counterexample: at progress 0 the interpolated view is not the start
snapshot when the two snapshots disagree on a non-interpolable attribute,
because those are copied from the final snapshot. -/
theorem interpolation_boundary_C5_counterexample :
    createInterpolatedShadowView 0 (sampleView 1)
        { sampleView 1 with componentName := "Image" } ≠ sampleView 1 := by
  decide

/-- C5 (amended): `createInterpolatedShadowView` returns exactly the final
snapshot at progress 1; at progress 0 every interpolable (numeric) attribute
equals the start snapshot's, and the result is exactly the start snapshot
whenever the two snapshots agree on the non-interpolable attributes. -/
theorem interpolation_boundary_C5 (s f : ShadowView) :
    createInterpolatedShadowView 1 s f = f ∧
    ((createInterpolatedShadowView 0 s f).layoutX = s.layoutX ∧
      (createInterpolatedShadowView 0 s f).layoutY = s.layoutY ∧
      (createInterpolatedShadowView 0 s f).layoutWidth = s.layoutWidth ∧
      (createInterpolatedShadowView 0 s f).layoutHeight = s.layoutHeight ∧
      (createInterpolatedShadowView 0 s f).opacity = s.opacity) ∧
    (s.tag = f.tag → s.componentName = f.componentName →
      createInterpolatedShadowView 0 s f = s) := by
  refine ⟨?_, ?_, ?_⟩
  · cases s
    cases f
    simp [createInterpolatedShadowView, interpolateScalar]
  · simp [createInterpolatedShadowView, interpolateScalar]
  · intro h1 h2
    cases s
    cases f
    simp_all [createInterpolatedShadowView, interpolateScalar]

/-- Witness for C5 at a concrete pair agreeing on non-interpolable
attributes: progress 0 reproduces the start snapshot exactly. -/
theorem interpolation_boundary_C5_witness :
    createInterpolatedShadowView 0 (sampleView 3)
        { sampleView 3 with layoutX := 50 } = sampleView 3 :=
  (interpolation_boundary_C5 (sampleView 3)
      { sampleView 3 with layoutX := 50 }).2.2 rfl rfl

/-- C6: `calculateAnimationProgress` returns the pair whose first component
is (now − startTime − delay) / duration, whose second component is the first
clamped into [0, 1], and the clamped progress is 0 whenever `now` precedes
`startTime + delay` (the delay phase), given a nonnegative duration. -/
theorem calculateAnimationProgress_C6 (now : ℚ)
    (animation : LayoutAnimation) (cfg : AnimationConfig)
    (hdur : 0 ≤ cfg.duration) :
    (calculateAnimationProgress now animation cfg).1 =
      (now - animation.startTime - cfg.delay) / cfg.duration ∧
    (calculateAnimationProgress now animation cfg).2 =
      max 0 (min 1 ((now - animation.startTime - cfg.delay) / cfg.duration)) ∧
    (now < animation.startTime + cfg.delay →
      (calculateAnimationProgress now animation cfg).2 = 0) := by
  refine ⟨rfl, rfl, ?_⟩
  intro hlt
  have hraw : (now - animation.startTime - cfg.delay) / cfg.duration ≤ 0 :=
    div_nonpos_of_nonpos_of_nonneg (by linarith) hdur
  have hmin : min 1 ((now - animation.startTime - cfg.delay) / cfg.duration)
      ≤ 0 := le_trans (min_le_right _ _) hraw
  exact max_eq_left hmin

/-- Witness for C6: at `now = 5` with start time 1, delay 10 and duration 100
the animation is still in its delay phase, so the clamped progress is 0. -/
theorem calculateAnimationProgress_C6_witness :
    (calculateAnimationProgress 5 ⟨1, 0⟩ ⟨100, 10⟩).2 = 0 :=
  (calculateAnimationProgress_C6 5 ⟨1, 0⟩ ⟨100, 10⟩ (by norm_num)).2.2
    (by norm_num)

/-- C8: with no configured animation and no in-flight keyframes on the given
surface, `pullTransaction` on an empty mutation batch returns the
pass-through ("no override") result, leaving the transaction unchanged. -/
theorem pullTransaction_passthrough_C8
    (state : LayoutAnimationKeyFrameManagerState)
    (surfaceId : Int) (number : Nat)
    (hanim : state.currentAnimation = none)
    (hinflight : ∀ a ∈ state.inflightAnimations, a.surfaceId ≠ surfaceId) :
    pullTransaction state surfaceId number [] = none := by
  have hov : shouldOverridePullTransaction state surfaceId = false := by
    simp only [shouldOverridePullTransaction, hanim, Option.isSome_none,
      Bool.false_or, List.any_eq_false]
    intro a ha
    simpa using hinflight a ha
  simp [pullTransaction, hov]

/-- Witness for C8: a state with no pending animation and one in-flight
animation on a different surface (9) passes surface 5's transaction through. -/
theorem pullTransaction_passthrough_C8_witness :
    pullTransaction ⟨none, [⟨9, 0⟩]⟩ 5 1 [] = none :=
  pullTransaction_passthrough_C8 ⟨none, [⟨9, 0⟩]⟩ 5 1 rfl (by decide)
